import Mathlib

/-!
Shallow embedding of the vulnix whitelist-filtering and reporting engine
(`src/vulnix/output.py`) and of the store resolution engine
(`src/vulnix/nix.py`), together with proofs about the frozen claims.

Python sets are modelled as `Finset`, Python `None`-able values as `Option`,
dates as `Nat` (ordinal day numbers), severity scores as `Rat`.
External effects (filesystem existence checks, invocations of the nix
tooling, loading of derivation files) are modelled as oracle parameters.
-/

namespace Vulnix

/-- Lexicographic (code-point) comparison of character lists, the order
Python uses on strings.  (Lean's builtin `String.lt` does not reduce in the
kernel, so the same order is restated over `String.data`.) -/
def charListLt : List Char → List Char → Bool
  | [], [] => false
  | [], _ :: _ => true
  | _ :: _, [] => false
  | a :: as, b :: bs => decide (a < b) || (decide (a = b) && charListLt as bs)

/-- Python `a < b` on strings. -/
def strLt (a b : String) : Bool := charListLt a.data b.data

/-- Python `a <= b` on strings. -/
def strLe (a b : String) : Bool := !(strLt b a)

/-- Python `s.endswith(suf)`. -/
def strEndsWith (s suf : String) : Bool := suf.data.isSuffixOf s.data

/-- Python truthiness of an optional string: `None` and `""` are falsy. -/
def strTruthy : Option String → Bool
  | none => false
  | some s => !s.data.isEmpty

/-- Modelled from the spec: Advisory value object ("Vulnerability", from
`vulnix/vulnerability.py`, not under src/): identifier, severity score
(numeric, default 0 meaning unscored), optional description (empty string
meaning absent). -/
structure Vulnerability where
  cve_id : String
  cvssv3 : Rat
  description : String
deriving DecidableEq

/-- Modelled from the spec: Derivation value object (`vulnix/derivation.py`,
not under src/): name, short name, version, optional resolved output path.
Ordering and equality are keyed on the name. -/
structure Derivation where
  name : String
  pname : String
  version : String
  store_path : Option String
deriving DecidableEq

/-- Modelled from the spec: Suppression rule value object ("WhitelistRule",
from `vulnix/whitelist.py`, not under src/): optional advisory-identifier
collection `cve`, optional expiry date `until`, issue references, comments.
`none` models an absent criterion; Python truthiness makes an empty
collection behave like an absent one at the use sites in output.py. -/
structure WhitelistRule where
  pname : String
  version : Option String
  cve : Option (List String)
  untilDate : Option Nat
  issue_url : Finset String
  comment : List String

/-- State of `Filtered` (output.py lines 23-58): derivation, ordered rule
history, active set `report`, suppressed set `masked`, earliest expiry
`until`. -/
structure Filtered where
  derivation : Derivation
  rules : List WhitelistRule
  report : Finset Vulnerability
  masked : Finset Vulnerability
  untilDate : Option Nat

/-- `Filtered.__init__` (output.py lines 34-38): all advisories start in
`report`, `masked` is empty, no rules, no expiry (class attribute
`until = None`). -/
def Filtered.init (derivation : Derivation) (vulnerabilities : Finset Vulnerability) : Filtered :=
  ⟨derivation, [], vulnerabilities, ∅, none⟩

/-- `self.rules.append(wl_rule)` (output.py line 47). -/
def Filtered.addRule (f : Filtered) (r : WhitelistRule) : Filtered :=
  { f with rules := f.rules ++ [r] }

/-- Expiry update of `Filtered.add` (output.py lines 48-50):
`if wl_rule.until: if not self.until or self.until > wl_rule.until:
self.until = wl_rule.until`.  The source field `until` is a Lean keyword
and is named `untilDate` here. -/
def Filtered.updateUntil (f : Filtered) (r : WhitelistRule) : Filtered :=
  match r.untilDate with
  | none => f
  | some u =>
    match f.untilDate with
    | none => { f with untilDate := some u }
    | some cu => if cu > u then { f with untilDate := some u } else f

/-- One iteration of the loop body in `Filtered.add` (output.py lines 52-55):
`mask = set(vuln for vuln in self.report if vuln.cve_id in wl_rule.cve);
self.report -= mask; self.masked |= mask`. -/
def Filtered.maskOnce (cve : List String) (g : Filtered) : Filtered :=
  let mask := g.report.filter (fun v => v.cve_id ∈ cve)
  { g with report := g.report \ mask, masked := g.masked ∪ mask }

/-- The blanket branch of `Filtered.add` (output.py lines 56-58):
`self.masked |= self.report; self.report = set()`. -/
def Filtered.blanket (f : Filtered) : Filtered :=
  { f with masked := f.masked ∪ f.report, report := ∅ }

/-- `Filtered.add` (output.py lines 46-58).  `if wl_rule.cve:` is Python
truthiness, so both an absent (`none`) and an empty advisory-identifier
collection take the blanket branch; otherwise the loop
`for _r in wl_rule.cve:` repeats the mask transfer once per element. -/
def Filtered.add (f : Filtered) (wl_rule : WhitelistRule) : Filtered :=
  let f1 := (f.addRule wl_rule).updateUntil wl_rule
  match wl_rule.cve with
  | some cve =>
    if cve.isEmpty then f1.blanket
    else cve.foldl (fun g _ => Filtered.maskOnce cve g) f1
  | none => f1.blanket

/-- A sequence of `add` calls. -/
def Filtered.applyRules (f : Filtered) (rules : List WhitelistRule) : Filtered :=
  rules.foldl Filtered.add f

/-- `vuln_sort_key` (output.py lines 18-20): `return (-v.cvssv3, v)`, where
the second component is the Vulnerability itself, whose ordering is by
identifier (modelled from the spec).  An unscored advisory carries score 0. -/
def vuln_sort_key (v : Vulnerability) : Rat × String := (-v.cvssv3, v.cve_id)

/-- The order in which Python's `sorted(..., key=vuln_sort_key)` arranges two
advisories: lexicographic comparison of their sort keys. -/
def vulnBefore (v w : Vulnerability) : Prop :=
  (vuln_sort_key v).1 < (vuln_sort_key w).1 ∨
    ((vuln_sort_key v).1 = (vuln_sort_key w).1 ∧
      strLe (vuln_sort_key v).2 (vuln_sort_key w).2 = true)

instance : DecidableRel vulnBefore := fun v w => by
  unfold vulnBefore; infer_instance

/-- `sorted(vulns, key=vuln_sort_key)` (output.py lines 75 and 78), as a
stable sort by the key order. -/
def sortVulns (vs : List Vulnerability) : List Vulnerability :=
  vs.insertionSort vulnBefore

/-- `sorted(items, key=attrgetter("derivation"))` (output.py lines 111, 114,
125): derivations order by name (modelled from the spec). -/
def filteredBefore (a b : Filtered) : Prop :=
  strLe a.derivation.name b.derivation.name = true

instance : DecidableRel filteredBefore := fun a b => by
  unfold filteredBefore; infer_instance

/-- One line or block emitted by the text renderer.  Each constructor stands
for one `click.secho`/`click.echo` call site in output.py; the advisory
listings carry the set being listed (rendered in `vulnBefore` order). -/
inductive Event where
  | separator (dim : Bool)
  | nameLine (name : String) (dim : Bool)
  | storePathLine (path : String) (dim : Bool)
  | headerLine (dim : Bool)
  | vulnListing (vulns : Finset Vulnerability) (show_description : Bool)
  | maskedListing (vulns : Finset Vulnerability) (show_description : Bool)
  | issuesBlock (urls : Finset String) (dim : Bool)
  | commentBlock (comments : List String) (dim : Bool)
  | nothingToShow (n : Nat)
  | noAdvisories
  | activeCount (n : Nat)
  | leftOut (n : Nat)
  | showWhitelistedHint
deriving DecidableEq

/-- `Filtered.print` (output.py lines 60-90): early return when nothing is
active and masked entries are not requested; otherwise separator, name,
optional store path, header, active listing, optional masked listing, the
union of the rules' issue links, and each rule's comment block.  `wl` is the
dim flag (`not self.report`). -/
def Filtered.printEvents (f : Filtered) (show_masked show_description : Bool) : List Event :=
  if f.report = ∅ ∧ show_masked = false then []
  else
    let wl := decide (f.report = ∅)
    let issues := f.rules.foldl (fun acc r => acc ∪ r.issue_url) ∅
    [Event.separator wl, Event.nameLine f.derivation.name wl]
      ++ (if strTruthy f.derivation.store_path then
            [Event.storePathLine (f.derivation.store_path.getD "") wl] else [])
      ++ [Event.headerLine wl, Event.vulnListing f.report show_description]
      ++ (if show_masked then [Event.maskedListing f.masked show_description] else [])
      ++ (if issues ≠ ∅ then [Event.issuesBlock issues wl] else [])
      ++ (f.rules.filter (fun r => !r.comment.isEmpty)).map
          (fun r => Event.commentBlock r.comment wl)

/-- `output_text` (output.py lines 93-120): partition the items into those
with a non-empty active set (`report`) and the rest (`wl`); emit the early
empty-case messages, or the summary count, the optional left-out count, the
per-derivation blocks in derivation order, and the closing hint. -/
def output_text (vulns : List Filtered) (show_whitelisted show_description : Bool) : List Event :=
  let report := vulns.filter (fun v => decide (v.report ≠ ∅))
  let wl := vulns.filter (fun v => decide (v.report = ∅))
  if report.isEmpty = true ∧ show_whitelisted = false then
    if wl.isEmpty = false then [Event.nothingToShow wl.length]
    else [Event.noAdvisories]
  else
    [Event.activeCount report.length]
      ++ (if wl.isEmpty = false ∧ show_whitelisted = false then [Event.leftOut wl.length]
          else [])
      ++ ((report.insertionSort filteredBefore).map
            (fun i => i.printEvents show_whitelisted show_description)).flatten
      ++ (if show_whitelisted then
            ((wl.insertionSort filteredBefore).map
              (fun i => i.printEvents show_whitelisted show_description)).flatten
          else [])
      ++ (if wl.isEmpty = false ∧ show_whitelisted = false then [Event.showWhitelistedHint]
          else [])

/-- One record emitted by `output_json` (output.py lines 123-147).  The two
score/description mappings are modelled as finite sets of key-value pairs,
and the sorted identifier lists as finite sets of identifiers. -/
structure JsonEntry where
  name : String
  pname : String
  version : String
  derivation : Option String
  affected_by : Finset String
  whitelisted : Finset String
  cvssv3_basescore : Finset (String × Rat)
  description : Finset (String × String)
deriving DecidableEq

/-- `output_json` (output.py lines 123-147): in derivation order, skip items
with an empty active set unless suppressed visibility was requested, and
emit one record per remaining item.  Scores are restricted to truthy
(non-zero) values, descriptions to truthy (non-empty) ones, both drawn from
the union of the active and suppressed sets. -/
def output_json (items : List Filtered) (show_whitelisted : Bool) : List JsonEntry :=
  ((items.insertionSort filteredBefore).filter
      (fun i => !(decide (i.report = ∅) && !show_whitelisted))).map
    (fun i =>
      { name := i.derivation.name
        pname := i.derivation.pname
        version := i.derivation.version
        derivation := i.derivation.store_path
        affected_by := i.report.image Vulnerability.cve_id
        whitelisted := i.masked.image Vulnerability.cve_id
        cvssv3_basescore := ((i.report ∪ i.masked).filter (fun v => v.cvssv3 ≠ 0)).image
          (fun v => (v.cve_id, v.cvssv3))
        description := ((i.report ∪ i.masked).filter (fun v => v.description ≠ "")).image
          (fun v => (v.cve_id, v.description)) })

/-- What `output` renders: JSON records or text events. -/
inductive OutputResult where
  | text (events : List Event)
  | jsonDump (entries : List JsonEntry)
deriving DecidableEq

/-- `output` (output.py lines 150-159): render, then derive the exit code:
2 if any item's active set is truthy (non-empty); else 1 if suppressed
visibility was requested and any item's suppressed set is truthy; else 0. -/
def output (items : List Filtered) (json_dump show_whitelisted show_description : Bool) :
    OutputResult × Nat :=
  let rendered := if json_dump then OutputResult.jsonDump (output_json items show_whitelisted)
    else OutputResult.text (output_text items show_whitelisted show_description)
  let code : Nat :=
    if items.any (fun i => decide (i.report ≠ ∅)) then 2
    else if show_whitelisted && items.any (fun i => decide (i.masked ≠ ∅)) then 1
    else 0
  (rendered, code)

/-- Oracles for the external effects consumed by `Store` (nix.py):
`pathExists` models `os.path.exists`, `queryPathInfoDeriver` the stripped
stdout of `nix-store -qd PATH` (line 74), `validDeriverKeys` the top-level
key list of the `nix show-derivation PATH` JSON object (lines 79-81). -/
structure StoreOracle where
  pathExists : String → Bool
  queryPathInfoDeriver : String → String
  validDeriverKeys : String → List String

/-- `Store._find_deriver` (nix.py lines 67-95).  The result is `Except`:
`Except.ok` models an ordinary return value (`none` standing for Python
`None`), `Except.error` a raised exception (`RuntimeError`, or the
`IndexError` from `[0]` on an empty key list).  The `path` and `qpi_arg`
arguments are optional strings, with Python truthiness; the caller-side
default for `qpi_arg` is the sentinel `some "undef"`. -/
def find_deriver (o : StoreOracle) (path : Option String) (qpi_arg : Option String) :
    Except String (Option String) :=
  if !strTruthy path || !strTruthy qpi_arg then Except.ok none
  else
    let pth := path.getD ""
    if strEndsWith pth ".drv" then Except.ok (some pth)
    else
      let qpi := if qpi_arg = some "undef" then o.queryPathInfoDeriver pth else qpi_arg.getD ""
      if qpi ≠ "" ∧ qpi ≠ "unknown-deriver" ∧ o.pathExists qpi = true then Except.ok (some qpi)
      else
        match (o.validDeriverKeys pth).head? with
        | none => Except.error "IndexError: list index out of range"
        | some qvd =>
          if qvd ≠ "" ∧ o.pathExists qvd = true then Except.ok (some qvd)
          else
            let e1 := if qpi ≠ "" ∧ qpi ≠ "unknown-deriver"
              then "Deriver " ++ qpi ++ " does not exist.  " else ""
            let e2 := if qvd ≠ "" ∧ qvd ≠ qpi
              then "Deriver " ++ qvd ++ " does not exist.  " else ""
            if e1 ++ e2 ≠ "" then
              Except.error (e1 ++ e2 ++ "Couldn't find deriver for path " ++ pth)
            else
              Except.error "Cannot determine deriver. Is this really a path into the nix store?"

/-- `Store.update` (nix.py lines 145-152): ignore a candidate unless it is
truthy and carries the `.drv` suffix; loading may signal skip (`none`),
otherwise the loaded Derivation joins the discovery set.  `load` models the
external recipe loader (`vulnix/derivation.py`, not under src/). -/
def Store.update (load : String → Option Derivation) (derivations : Finset Derivation)
    (drv_path : Option String) : Finset Derivation :=
  if !strTruthy drv_path || !strEndsWith (drv_path.getD "") ".drv" then derivations
  else
    match load (drv_path.getD "") with
    | none => derivations
    | some d => insert d derivations

/-- One record of the list-shaped `nix path-info -r --json` output: its
`path` and `deriver` fields (either may be absent). -/
structure PathInfoItem where
  path : Option String
  deriver : Option String
deriving DecidableEq

/-- The two JSON shapes `nix path-info -r --json` may produce (nix.py lines
122-136): a mapping keyed by output path whose values carry a `deriver`
field, or a list of records; anything else is logged and skipped. -/
inductive PathInfoData where
  | mapping (items : List (String × Option String))
  | listing (items : List PathInfoItem)
  | other

/-- The shape dispatch of `Store.add_path` in closure mode for one output's
path-info data (nix.py lines 119-136): resolve each (path, deriver) pair
through `_find_deriver` and register the candidate with `update`; a raised
exception aborts the whole traversal. -/
def processPathInfo (o : StoreOracle) (load : String → Option Derivation)
    (data : PathInfoData) (derivations : Finset Derivation) :
    Except String (Finset Derivation) :=
  match data with
  | PathInfoData.mapping items =>
    items.foldlM (fun s it => do
      let candidate ← find_deriver o (some it.1) it.2
      pure (Store.update load s candidate)) derivations
  | PathInfoData.listing items =>
    items.foldlM (fun s info => do
      let candidate ← find_deriver o info.path info.deriver
      pure (Store.update load s candidate)) derivations
  | PathInfoData.other => Except.ok derivations

/-- One element of a profile's `manifest.json` (nix.py lines 37-49): the
`active` flag and the `storePaths` list. -/
structure ProfileElement where
  active : Bool
  storePaths : List String

/-- The two shapes of the manifest's `elements` collection (nix.py lines
35-49): a mapping of name to element, or a plain list of elements. -/
inductive ManifestElements where
  | mapping (items : List (String × ProfileElement))
  | listing (items : List ProfileElement)

/-- The element traversal of `Store.add_profile` (nix.py lines 37-49):
skip inactive elements, submit every store path of an active element to
`add_path` (passed in as a state transformer, since `add_path` touches the
filesystem and nix tooling). -/
def processManifest {S : Type} (addPath : S → String → Except String S)
    (elements : ManifestElements) (st : S) : Except String S :=
  match elements with
  | ManifestElements.mapping items =>
    items.foldlM (fun s it =>
      if it.2.active = false then pure s else it.2.storePaths.foldlM addPath s) st
  | ManifestElements.listing items =>
    items.foldlM (fun s el =>
      if el.active = false then pure s else el.storePaths.foldlM addPath s) st

/-- Minimum of two optional dates, `none` meaning absent. -/
def optMin : Option Nat → Option Nat → Option Nat
  | none, b => b
  | some x, none => some x
  | some x, some y => some (min x y)

/-- Minimum of a list of dates, `none` when the list is empty. -/
def listMinOpt (l : List Nat) : Option Nat :=
  l.foldl (fun acc u => optMin acc (some u)) none

/-- `x` is at most `y` in the "absent is top" order on optional dates. -/
def untilLE (x y : Option Nat) : Prop :=
  match y with
  | none => True
  | some b => ∃ a, x = some a ∧ a ≤ b

/-! ### Concrete values used by witnesses and counterexamples -/

def testDeriv : Derivation := ⟨"test-0.2", "test", "0.2", none⟩

def vuln1 : Vulnerability := ⟨"CVE-2018-0001", 0, ""⟩

def vuln2 : Vulnerability := ⟨"CVE-2018-0002", 0, ""⟩

def vuln3 : Vulnerability := ⟨"CVE-2018-0003", 9.8, ""⟩

def testFiltered : Filtered := Filtered.init testDeriv {vuln1, vuln2}

def blanketRule : WhitelistRule := ⟨"test", none, none, none, ∅, []⟩

def cveRule : WhitelistRule := ⟨"test", some "1.2", some ["CVE-2018-0001"], none, ∅, []⟩

def emptyFiltered : Filtered := Filtered.init testDeriv ∅

def noOracle : StoreOracle := ⟨fun _ => false, fun _ => "", fun _ => []⟩

/-! ### Helper lemmas about `Filtered.add` -/

lemma updateUntil_report (f : Filtered) (r : WhitelistRule) :
    (f.updateUntil r).report = f.report := by
  unfold Filtered.updateUntil
  rcases r.untilDate with _ | u
  · rfl
  · rcases f.untilDate with _ | cu
    · rfl
    · dsimp only
      split <;> rfl

lemma updateUntil_masked (f : Filtered) (r : WhitelistRule) :
    (f.updateUntil r).masked = f.masked := by
  unfold Filtered.updateUntil
  rcases r.untilDate with _ | u
  · rfl
  · rcases f.untilDate with _ | cu
    · rfl
    · dsimp only
      split <;> rfl

lemma addRule_report (f : Filtered) (r : WhitelistRule) :
    (f.addRule r).report = f.report := rfl

lemma addRule_masked (f : Filtered) (r : WhitelistRule) :
    (f.addRule r).masked = f.masked := rfl

lemma addRule_untilDate (f : Filtered) (r : WhitelistRule) :
    (f.addRule r).untilDate = f.untilDate := rfl

lemma updateUntil_untilDate (f : Filtered) (r : WhitelistRule) :
    (f.updateUntil r).untilDate = optMin f.untilDate r.untilDate := by
  unfold Filtered.updateUntil
  rcases hr : r.untilDate with _ | u
  · rcases hf : f.untilDate with _ | cu <;> simp [optMin, hf]
  · rcases hf : f.untilDate with _ | cu
    · simp [optMin, hf]
    · simp only [hf, optMin]
      by_cases h : cu > u
      · simp [if_pos h, min_eq_right (Nat.le_of_lt h)]
      · simp [if_neg h, hf, min_eq_left (Nat.le_of_not_lt h)]

lemma blanket_union (g : Filtered) :
    g.blanket.report ∪ g.blanket.masked = g.report ∪ g.masked := by
  simp [Filtered.blanket, Finset.union_comm]

lemma blanket_disjoint (g : Filtered) :
    g.blanket.report ∩ g.blanket.masked = ∅ := by
  simp [Filtered.blanket]

lemma blanket_masked_mono (g : Filtered) : g.masked ⊆ g.blanket.masked := by
  simp only [Filtered.blanket]
  exact Finset.subset_union_left

lemma maskOnce_report (cve : List String) (g : Filtered) :
    (Filtered.maskOnce cve g).report = g.report.filter (fun v => v.cve_id ∉ cve) := by
  simp [Filtered.maskOnce, Finset.filter_not]

lemma maskOnce_masked (cve : List String) (g : Filtered) :
    (Filtered.maskOnce cve g).masked
      = g.masked ∪ g.report.filter (fun v => v.cve_id ∈ cve) := rfl

lemma maskOnce_untilDate (cve : List String) (g : Filtered) :
    (Filtered.maskOnce cve g).untilDate = g.untilDate := rfl

lemma maskOnce_union (cve : List String) (g : Filtered) :
    (Filtered.maskOnce cve g).report ∪ (Filtered.maskOnce cve g).masked
      = g.report ∪ g.masked := by
  simp only [Filtered.maskOnce]
  ext v
  simp only [Finset.mem_union, Finset.mem_sdiff, Finset.mem_filter]
  tauto

lemma maskOnce_masked_mono (cve : List String) (g : Filtered) :
    g.masked ⊆ (Filtered.maskOnce cve g).masked := by
  simp only [Filtered.maskOnce]
  exact Finset.subset_union_left

lemma maskOnce_disjoint (cve : List String) (g : Filtered)
    (h : g.report ∩ g.masked = ∅) :
    (Filtered.maskOnce cve g).report ∩ (Filtered.maskOnce cve g).masked = ∅ := by
  rw [Finset.eq_empty_iff_forall_not_mem] at h ⊢
  intro v hv
  have hv2 := h v
  simp only [Filtered.maskOnce, Finset.mem_inter, Finset.mem_union, Finset.mem_sdiff,
    Finset.mem_filter] at hv hv2
  tauto

lemma maskOnce_fix (cve : List String) (g : Filtered)
    (h : g.report.filter (fun v => v.cve_id ∈ cve) = ∅) :
    Filtered.maskOnce cve g = g := by
  simp only [Filtered.maskOnce]
  rw [h]
  simp

lemma maskOnce_filter_empty (cve : List String) (g : Filtered) :
    (Filtered.maskOnce cve g).report.filter (fun v => v.cve_id ∈ cve) = ∅ := by
  rw [maskOnce_report, Finset.filter_filter]
  rw [Finset.filter_eq_empty_iff]
  intro v _
  tauto

lemma maskOnce_idem (cve : List String) (g : Filtered) :
    Filtered.maskOnce cve (Filtered.maskOnce cve g) = Filtered.maskOnce cve g :=
  maskOnce_fix cve _ (maskOnce_filter_empty cve g)

lemma foldl_maskOnce_const (cve : List String) (l : List String) (g : Filtered)
    (h : Filtered.maskOnce cve g = g) :
    l.foldl (fun g2 _ => Filtered.maskOnce cve g2) g = g := by
  induction l with
  | nil => rfl
  | cons x xs ih => rw [List.foldl_cons, h]; exact ih

lemma add_eq_blanket (f : Filtered) (r : WhitelistRule) (h : r.cve = none) :
    f.add r = ((f.addRule r).updateUntil r).blanket := by
  unfold Filtered.add
  rw [h]

lemma add_eq_blanket_empty (f : Filtered) (r : WhitelistRule) (h : r.cve = some []) :
    f.add r = ((f.addRule r).updateUntil r).blanket := by
  unfold Filtered.add
  rw [h]
  rfl

lemma add_eq_mask (f : Filtered) (r : WhitelistRule) (cve : List String)
    (h : r.cve = some cve) (hne : cve ≠ []) :
    f.add r = Filtered.maskOnce cve ((f.addRule r).updateUntil r) := by
  unfold Filtered.add
  rw [h]
  cases cve with
  | nil => exact absurd rfl hne
  | cons x xs =>
    simp only [List.isEmpty_cons, Bool.false_eq_true, if_false, List.foldl_cons]
    exact foldl_maskOnce_const _ xs _ (maskOnce_idem _ _)

lemma add_union (f : Filtered) (r : WhitelistRule) :
    (f.add r).report ∪ (f.add r).masked = f.report ∪ f.masked := by
  rcases hc : r.cve with _ | cve
  · rw [add_eq_blanket f r hc, blanket_union, updateUntil_report, updateUntil_masked,
      addRule_report, addRule_masked]
  · cases cve with
    | nil => rw [add_eq_blanket_empty f r hc, blanket_union, updateUntil_report,
        updateUntil_masked, addRule_report, addRule_masked]
    | cons x xs =>
      rw [add_eq_mask f r (x :: xs) hc (List.cons_ne_nil x xs), maskOnce_union,
        updateUntil_report, updateUntil_masked, addRule_report, addRule_masked]

lemma add_masked_mono (f : Filtered) (r : WhitelistRule) :
    f.masked ⊆ (f.add r).masked := by
  rcases hc : r.cve with _ | cve
  · rw [add_eq_blanket f r hc]
    have := blanket_masked_mono ((f.addRule r).updateUntil r)
    rwa [updateUntil_masked, addRule_masked] at this
  · cases cve with
    | nil =>
      rw [add_eq_blanket_empty f r hc]
      have := blanket_masked_mono ((f.addRule r).updateUntil r)
      rwa [updateUntil_masked, addRule_masked] at this
    | cons x xs =>
      rw [add_eq_mask f r (x :: xs) hc (List.cons_ne_nil x xs)]
      have := maskOnce_masked_mono (x :: xs) ((f.addRule r).updateUntil r)
      rwa [updateUntil_masked, addRule_masked] at this

lemma add_disjoint (f : Filtered) (r : WhitelistRule)
    (h : f.report ∩ f.masked = ∅) :
    (f.add r).report ∩ (f.add r).masked = ∅ := by
  rcases hc : r.cve with _ | cve
  · rw [add_eq_blanket f r hc]
    exact blanket_disjoint _
  · cases cve with
    | nil =>
      rw [add_eq_blanket_empty f r hc]
      exact blanket_disjoint _
    | cons x xs =>
      rw [add_eq_mask f r (x :: xs) hc (List.cons_ne_nil x xs)]
      apply maskOnce_disjoint
      rwa [updateUntil_report, updateUntil_masked, addRule_report, addRule_masked]

lemma add_untilDate (f : Filtered) (r : WhitelistRule) :
    (f.add r).untilDate = optMin f.untilDate r.untilDate := by
  rcases hc : r.cve with _ | cve
  · rw [add_eq_blanket f r hc]
    show ((f.addRule r).updateUntil r).untilDate = _
    rw [updateUntil_untilDate, addRule_untilDate]
  · cases cve with
    | nil =>
      rw [add_eq_blanket_empty f r hc]
      show ((f.addRule r).updateUntil r).untilDate = _
      rw [updateUntil_untilDate, addRule_untilDate]
    | cons x xs =>
      rw [add_eq_mask f r (x :: xs) hc (List.cons_ne_nil x xs), maskOnce_untilDate,
        updateUntil_untilDate, addRule_untilDate]

lemma applyRules_union (rules : List WhitelistRule) (f : Filtered) :
    ((f.applyRules rules).report ∪ (f.applyRules rules).masked) = f.report ∪ f.masked := by
  induction rules generalizing f with
  | nil => rfl
  | cons r rs ih =>
    show ((f.add r).applyRules rs).report ∪ ((f.add r).applyRules rs).masked = _
    rw [ih (f.add r), add_union]

lemma applyRules_masked_mono (rules : List WhitelistRule) (f : Filtered) :
    f.masked ⊆ (f.applyRules rules).masked := by
  induction rules generalizing f with
  | nil => exact Finset.Subset.refl _
  | cons r rs ih =>
    show f.masked ⊆ ((f.add r).applyRules rs).masked
    exact (add_masked_mono f r).trans (ih (f.add r))

lemma applyRules_disjoint (rules : List WhitelistRule) (f : Filtered)
    (h : f.report ∩ f.masked = ∅) :
    (f.applyRules rules).report ∩ (f.applyRules rules).masked = ∅ := by
  induction rules generalizing f with
  | nil => exact h
  | cons r rs ih =>
    show ((f.add r).applyRules rs).report ∩ ((f.add r).applyRules rs).masked = ∅
    exact ih (f.add r) (add_disjoint f r h)

/-! ### Lemmas about the expiry tracking -/

lemma optMin_none_right (a : Option Nat) : optMin a none = a := by
  cases a <;> rfl

lemma applyRules_untilDate (rules : List WhitelistRule) (f : Filtered) :
    (f.applyRules rules).untilDate
      = rules.foldl (fun a r => optMin a r.untilDate) f.untilDate := by
  induction rules generalizing f with
  | nil => rfl
  | cons r rs ih =>
    show ((f.add r).applyRules rs).untilDate = _
    rw [ih (f.add r), add_untilDate, List.foldl_cons]

lemma foldl_optMin_filterMap (rules : List WhitelistRule) (a : Option Nat) :
    rules.foldl (fun acc r => optMin acc r.untilDate) a
      = (rules.filterMap WhitelistRule.untilDate).foldl (fun acc u => optMin acc (some u)) a := by
  induction rules generalizing a with
  | nil => rfl
  | cons r rs ih =>
    rcases hr : r.untilDate with _ | u
    · rw [List.foldl_cons, hr, optMin_none_right]
      rw [List.filterMap_cons]
      rw [hr]
      exact ih a
    · rw [List.foldl_cons, hr]
      rw [List.filterMap_cons]
      rw [hr]
      rw [List.foldl_cons]
      exact ih _

lemma exists_error_of_ite (c : Prop) [Decidable c] (a b : String) :
    ∃ e, (if c then (Except.error a : Except String (Option String)) else Except.error b)
      = Except.error e := by
  split
  · exact ⟨a, rfl⟩
  · exact ⟨b, rfl⟩

/-! ### Claim theorems -/

/-- Claim C1: for every `Filtered` built from a derivation and an initial
advisory set, and for every sequence of `add` calls (split into an
arbitrary earlier part and later part, so the statement covers every
intermediate moment), the active set and the suppressed set are disjoint,
their union equals the initial advisory set (so it never grows), and the
suppressed set of the earlier moment is contained in the later one — an
advisory never returns to active. -/
theorem filtered_partition_invariants (d : Derivation) (vs : Finset Vulnerability)
    (rules₁ rules₂ : List WhitelistRule) :
    (((Filtered.init d vs).applyRules rules₁).applyRules rules₂).report ∩
        (((Filtered.init d vs).applyRules rules₁).applyRules rules₂).masked = ∅ ∧
    (((Filtered.init d vs).applyRules rules₁).applyRules rules₂).report ∪
        (((Filtered.init d vs).applyRules rules₁).applyRules rules₂).masked = vs ∧
    ((Filtered.init d vs).applyRules rules₁).masked ⊆
        (((Filtered.init d vs).applyRules rules₁).applyRules rules₂).masked := by
  refine ⟨?_, ?_, ?_⟩
  · apply applyRules_disjoint
    apply applyRules_disjoint
    simp [Filtered.init]
  · rw [applyRules_union, applyRules_union]
    simp [Filtered.init]
  · exact applyRules_masked_mono _ _

/-- Claim C3: applying a rule that specifies no advisory-identifier
collection (a blanket rule) moves the entire remaining active set into the
suppressed set and leaves the active set empty, whatever the prior
history. -/
theorem blanket_rule_empties_active (f : Filtered) (r : WhitelistRule)
    (h : r.cve = none) :
    (f.add r).report = ∅ ∧ (f.add r).masked = f.masked ∪ f.report := by
  rw [add_eq_blanket f r h]
  constructor
  · rfl
  · show ((f.addRule r).updateUntil r).masked ∪ ((f.addRule r).updateUntil r).report = _
    rw [updateUntil_masked, updateUntil_report, addRule_masked, addRule_report]

theorem blanket_rule_empties_active_witness :
    (testFiltered.add blanketRule).report = ∅ ∧
    (testFiltered.add blanketRule).masked = testFiltered.masked ∪ testFiltered.report :=
  blanket_rule_empties_active testFiltered blanketRule rfl

/-- Claim C4: applying a rule with a non-empty advisory-identifier
collection moves exactly the currently-active advisories whose identifier
is in that collection from active to suppressed; non-matching active
advisories stay active, and previously suppressed advisories are kept
untouched in the suppressed set. -/
theorem specific_rule_moves_matching (f : Filtered) (r : WhitelistRule) (cve : List String)
    (hc : r.cve = some cve) (hne : cve ≠ []) :
    (f.add r).report = f.report.filter (fun v => v.cve_id ∉ cve) ∧
    (f.add r).masked = f.masked ∪ f.report.filter (fun v => v.cve_id ∈ cve) := by
  rw [add_eq_mask f r cve hc hne]
  constructor
  · rw [maskOnce_report, updateUntil_report, addRule_report]
  · rw [maskOnce_masked, updateUntil_masked, updateUntil_report, addRule_masked, addRule_report]

theorem specific_rule_moves_matching_witness :
    (testFiltered.add cveRule).report
        = testFiltered.report.filter (fun v => v.cve_id ∉ ["CVE-2018-0001"]) ∧
    (testFiltered.add cveRule).masked
        = testFiltered.masked ∪
            testFiltered.report.filter (fun v => v.cve_id ∈ ["CVE-2018-0001"]) :=
  specific_rule_moves_matching testFiltered cveRule ["CVE-2018-0001"] rfl
    (List.cons_ne_nil _ _)

/-- Claim C5: the tracked earliest-expiry equals the minimum of the expiry
dates of all rules applied so far (absent if none carried one), it is
monotonically non-increasing under `add`, and a rule without an expiry date
leaves it unchanged. -/
theorem until_tracks_min_expiry (d : Derivation) (vs : Finset Vulnerability)
    (rules : List WhitelistRule) (f : Filtered) (r : WhitelistRule) :
    ((Filtered.init d vs).applyRules rules).untilDate
        = listMinOpt (rules.filterMap WhitelistRule.untilDate) ∧
    untilLE (f.add r).untilDate f.untilDate ∧
    (f.add { r with untilDate := none }).untilDate = f.untilDate := by
  refine ⟨?_, ?_, ?_⟩
  · rw [applyRules_untilDate, foldl_optMin_filterMap]
    rfl
  · rw [add_untilDate]
    rcases f.untilDate with _ | b
    · trivial
    · rcases r.untilDate with _ | u
      · exact ⟨b, rfl, le_refl b⟩
      · exact ⟨min b u, rfl, min_le_left b u⟩
  · rw [add_untilDate]
    exact optMin_none_right f.untilDate

/-- Claim C10: a rule whose advisory-identifier collection is present but
empty behaves exactly like a blanket rule: the partition and expiry state
agree with those produced by the corresponding absent-collection rule, and
the active set is emptied (only the recorded rule history differs). -/
theorem empty_cve_collection_is_blanket (f : Filtered) (r : WhitelistRule) :
    (f.add { r with cve := some [] }).report = (f.add { r with cve := none }).report ∧
    (f.add { r with cve := some [] }).masked = (f.add { r with cve := none }).masked ∧
    (f.add { r with cve := some [] }).untilDate
        = (f.add { r with cve := none }).untilDate ∧
    (f.add { r with cve := some [] }).report = ∅ := by
  rw [add_eq_blanket_empty f { r with cve := some [] } rfl,
    add_eq_blanket f { r with cve := none } rfl]
  refine ⟨rfl, ?_, ?_, rfl⟩
  · show ((f.addRule { r with cve := some [] }).updateUntil { r with cve := some [] }).masked
          ∪ ((f.addRule { r with cve := some [] }).updateUntil { r with cve := some [] }).report
        = ((f.addRule { r with cve := none }).updateUntil { r with cve := none }).masked
          ∪ ((f.addRule { r with cve := none }).updateUntil { r with cve := none }).report
    simp only [updateUntil_masked, updateUntil_report, addRule_masked, addRule_report]
  · show ((f.addRule { r with cve := some [] }).updateUntil { r with cve := some [] }).untilDate
        = ((f.addRule { r with cve := none }).updateUntil { r with cve := none }).untilDate
    simp only [updateUntil_untilDate, addRule_untilDate]

/-- Claim C2: the exit code of `output` is 2 when any item has a non-empty
active set (independently of the flags); otherwise 1 when suppressed
visibility was requested and any item has a non-empty suppressed set;
otherwise 0. -/
theorem output_exit_code (items : List Filtered) (jd sw sd : Bool) :
    (output items jd sw sd).2 =
      if ∃ i ∈ items, i.report ≠ ∅ then 2
      else if sw = true ∧ ∃ i ∈ items, i.masked ≠ ∅ then 1
      else 0 := by
  simp only [output, List.any_eq_true, decide_eq_true_eq, Bool.and_eq_true]

/-- Claim C8: two advisories are rendered in `vulnBefore` order exactly when
the first has the strictly higher severity score, or the scores tie and its
identifier is not larger; an unscored advisory carries score 0 in the
model.  On the concrete instance of the spec (scores 9.8, 0, 0 for
identifiers 0003, 0001, 0002) sorting yields 0003, 0001, 0002. -/
theorem vuln_sort_order :
    (∀ v w : Vulnerability, vulnBefore v w ↔
      (w.cvssv3 < v.cvssv3 ∨ (v.cvssv3 = w.cvssv3 ∧ strLe v.cve_id w.cve_id = true))) ∧
    sortVulns [vuln1, vuln2, vuln3] = [vuln3, vuln1, vuln2] := by
  constructor
  · intro v w
    unfold vulnBefore vuln_sort_key
    simp only [neg_lt_neg_iff, neg_inj]
  · norm_num [sortVulns, List.insertionSort, List.orderedInsert, vulnBefore, vuln_sort_key,
      vuln1, vuln2, vuln3, strLe, strLt, charListLt]
    decide

/-- Claim C9 counterexample: a collection holding one `Filtered` with no
active and no suppressed advisories is not given the clean no-advisories
message; the renderer counts it into the left-out bucket and emits the
nothing-to-show message instead. -/
theorem no_advisories_message_counterexample :
    output_text [emptyFiltered] false false = [Event.nothingToShow 1] ∧
    Event.nothingToShow 1 ≠ Event.noAdvisories := by
  refine ⟨rfl, by simp⟩

/-- Claim C9 amended: without suppressed visibility, when every item's
active set is empty, the renderer emits the clean no-advisories message
exactly when the collection itself is empty; a non-empty collection gets
the nothing-to-show message counting all items — whether their advisories
were suppressed or they simply have none. -/
theorem no_advisories_message_amended (items : List Filtered) (sd : Bool)
    (hall : ∀ i ∈ items, i.report = ∅) :
    (items = [] → output_text items false sd = [Event.noAdvisories]) ∧
    (items ≠ [] → output_text items false sd = [Event.nothingToShow items.length]) := by
  have hrep : items.filter (fun v => decide (v.report ≠ ∅)) = [] := by
    rw [List.filter_eq_nil_iff]
    intro a ha
    simp [hall a ha]
  have hwl : items.filter (fun v => decide (v.report = ∅)) = items := by
    rw [List.filter_eq_self]
    intro a ha
    simp [hall a ha]
  constructor
  · rintro rfl
    rfl
  · intro hne
    unfold output_text
    rw [hrep, hwl]
    simp [List.isEmpty_iff, hne]

theorem no_advisories_message_amended_witness :
    output_text [emptyFiltered] false false = [Event.nothingToShow 1] :=
  (no_advisories_message_amended [emptyFiltered] false
      (by
        intro i hi
        rw [List.mem_singleton] at hi
        subst hi
        rfl)).2
    (by simp)

/-- Claim C6: feeding the resolution steps the mapping-shaped variant and
the list-shaped variant of the recursive path-info result (and likewise of
the profile-manifest element collection) produces identical
discovered-derivation sets when the contents correspond: each list record
carries the mapping key as its path and the same deriver field (resp. each
list element is the mapping entry's element). -/
theorem shape_variants_equivalent (o : StoreOracle) (load : String → Option Derivation)
    (items : List (String × Option String)) (derivs : Finset Derivation)
    (S : Type) (addPath : S → String → Except String S)
    (elems : List (String × ProfileElement)) (st : S) :
    processPathInfo o load (PathInfoData.mapping items) derivs
      = processPathInfo o load
          (PathInfoData.listing (items.map (fun it => ⟨some it.1, it.2⟩))) derivs ∧
    processManifest addPath (ManifestElements.mapping elems) st
      = processManifest addPath (ManifestElements.listing (elems.map Prod.snd)) st := by
  constructor
  · simp only [processPathInfo]
    rw [List.foldlM_map]
  · simp only [processManifest]
    rw [List.foldlM_map]

/-- Claim C7 counterexample: with an empty path (Python falsy), or with an
absent caller-supplied deriver field, `_find_deriver` returns `None`
instead of failing fatally — and `update` then silently skips the `None`
candidate, so processing continues. -/
theorem find_deriver_silent_none_counterexample :
    find_deriver noOracle (some "") (some "undef") = Except.ok none ∧
    find_deriver noOracle (some "/nix/store/abc") none = Except.ok none ∧
    Store.update (fun _ => none) ∅ none = ∅ :=
  ⟨rfl, rfl, rfl⟩

/-- Claim C7 amended: resolution returns `None` (path skipped, processing
continues) whenever the path or the caller-supplied deriver field is
empty/absent; the fatal diagnostic abort happens in the full lookup — a
truthy path without the recipe suffix whose freshly queried deriver
candidate is not accepted (empty, unknown sentinel, or not on disk) and
whose alternate candidate is not accepted either. -/
theorem find_deriver_fatal_amended (o : StoreOracle) (pth : String)
    (h1 : strTruthy (some pth) = true)
    (h2 : strEndsWith pth ".drv" = false)
    (h3 : ¬(o.queryPathInfoDeriver pth ≠ "" ∧ o.queryPathInfoDeriver pth ≠ "unknown-deriver"
            ∧ o.pathExists (o.queryPathInfoDeriver pth) = true))
    (h4 : ∀ qvd, (o.validDeriverKeys pth).head? = some qvd
            → ¬(qvd ≠ "" ∧ o.pathExists qvd = true)) :
    ∃ e, find_deriver o (some pth) (some "undef") = Except.error e := by
  unfold find_deriver
  rw [h1]
  simp only [show strTruthy (some "undef") = true from rfl, Bool.not_true, Bool.or_self,
    Bool.false_eq_true, if_false, Option.getD_some, eq_self_iff_true, if_true]
  rw [h2]
  simp only [Bool.false_eq_true, if_false]
  rw [if_neg h3]
  cases hh : (o.validDeriverKeys pth).head? with
  | none => exact ⟨_, rfl⟩
  | some qvd =>
    dsimp only
    rw [if_neg (h4 qvd hh)]
    exact exists_error_of_ite _ _ _

theorem find_deriver_fatal_amended_witness :
    ∃ e, find_deriver noOracle (some "/nix/store/abc") (some "undef") = Except.error e :=
  find_deriver_fatal_amended noOracle "/nix/store/abc" rfl rfl
    (fun h => h.1 rfl) (fun _ h => Option.noConfusion h)

end Vulnix
